import Mathlib

/-!
Verification development for the pre-commit linter driver of oppia/oppia-ml-proto
(`pre_commit_linter.py`).  The script targets the Python 2 runtime (the companion
installer uses `urllib.urlretrieve`), so byte-mode file reads yield one-character
strings that compare equal to string literals; the embedding below models file
contents as byte lists under those semantics.

The embedding models:
  * the glob exclusion filter (`EXCLUDED_PATHS`, `fnmatch`) of lines 86, 198-200, 258-260;
  * file selection (`_get_all_files`, lines 165-201) over an abstract environment
    describing the file system, the version-control answers and the external linter;
  * the newline-at-EOF checker (`_check_newline_character`, lines 249-300);
  * the proto lint stage (`_lint_proto_files`, lines 126-163, and
    `_pre_commit_linter`, lines 204-246), with the worker process modelled as a
    completed sequential call and the one-shot result queue as the list of messages
    put on it;
  * the `%` string-formatting operator, needed because line 208 applies it to a
    format string without any conversion;
  * `main` (lines 303-310) with its exit behaviour: `sys.exit` is `Outcome.exited`,
    an uncaught Python exception is `Outcome.uncaught` (the interpreter then exits
    with status 1), and returning normally is `Outcome.finished 0`.

Wall-clock time enters only through the elapsed-seconds figure printed with
one-decimal precision by the proto stage; it is modelled as a decisecond count
supplied by the environment (`protoElapsedDs`).
-/

namespace PreCommitLinter

/-- A byte of a file, as read in 'rb' mode. -/
abbrev Byte := Nat

/-- The newline byte (used by the checks at lines 274). -/
def NEWLINE_BYTE : Byte := 10

/-- Model of Python `str.startswith` (used at line 308). -/
def pyStartsWith (s pre : String) : Bool := pre.data.isPrefixOf s.data

/-- Model of Python `str.endswith` (used at lines 71 and 217). -/
def pyEndsWith (s suf : String) : Bool := suf.data.isSuffixOf s.data

/-- Model of the Python 2 `%` formatting operator with a list of already-rendered
arguments, restricted to the `%s` conversion (the only conversion relevant to the
branch at line 208, where the format string holds no conversion at all).  A `%s`
consumes one argument; arguments left over once the format string is exhausted
raise `TypeError: not all arguments converted during string formatting`. -/
def percentFormatChars : List Char → List String → Except String (List Char)
  | [], [] => Except.ok []
  | [], _ :: _ => Except.error "not all arguments converted during string formatting"
  | '%' :: 's' :: rest, a :: args => (percentFormatChars rest args).map (fun t => a.data ++ t)
  | '%' :: 's' :: _, [] => Except.error "not enough arguments for format string"
  | '%' :: '%' :: rest, args => (percentFormatChars rest args).map (fun t => '%' :: t)
  | c :: rest, args => (percentFormatChars rest args).map (fun t => c :: t)

/-- `fmt % args` in Python 2, `Except.error` being a raised `TypeError`. -/
def percentFormat (fmt : String) (args : List String) : Except String String :=
  (percentFormatChars fmt.data args).map String.mk

/-- The `%.1f` rendering (line 160) of the measured elapsed time, which the
environment supplies as a whole number of deciseconds. -/
def formatDs (d : Nat) : String := toString (d / 10) ++ "." ++ toString (d % 10)

/-- A single-quote character, needed to render Python `str` of a string list. -/
def pySingleQuote : String := (Char.ofNat 39).toString

def pyQuotedJoin : List String → String
  | [] => ""
  | [x] => pySingleQuote ++ x ++ pySingleQuote
  | x :: y :: rest => pySingleQuote ++ x ++ pySingleQuote ++ ", " ++ pyQuotedJoin (y :: rest)

/-- Python `str` of a list of strings, as interpolated by `%s` at lines 191-193. -/
def pyStrList (xs : List String) : String := "[" ++ pyQuotedJoin xs ++ "]"

/-- `fnmatch`-style glob matching over characters: literals match themselves,
`?` matches one character and `*` matches any run of characters (also across
slashes, as `fnmatch.fnmatch` does).  The repository's patterns use only
literals and `*`. -/
def globMatch : List Char → List Char → Bool
  | [], s => s.isEmpty
  | p :: ps, s =>
    if p == '*' then s.tails.any (fun t => globMatch ps t)
    else
      match s with
      | [] => false
      | c :: cs => (p == '?' || p == c) && globMatch ps cs

/-- `fnmatch.fnmatch(filename, pat)` on a case-sensitive platform. -/
def fnmatch (filename pat : String) : Bool := globMatch pat.data filename.data

/-- Line 86. -/
def EXCLUDED_PATHS : List String := ["third_party/*", ".git/*", ".github/*"]

/-- The exclusion filter applied at lines 198-200 and applied again at
lines 258-260. -/
def excludeFilter (files : List String) : List String :=
  files.filter (fun filename => !(EXCLUDED_PATHS.any (fun pat => fnmatch filename pat)))

/-- `os.path.join` (POSIX) for the two-argument call at line 172. -/
def osPathJoin (a b : String) : String :=
  if pyStartsWith b "/" then b
  else if a == "" || pyEndsWith a "/" then a ++ b
  else a ++ "/" ++ b

/-- Iterating a byte-mode Python 2 file handle yields its byte content split
into lines, each line keeping its trailing newline byte. -/
def splitLinesRB : List Byte → List (List Byte)
  | [] => []
  | b :: bs =>
    if b == NEWLINE_BYTE then [b] :: splitLinesRB bs
    else
      match splitLinesRB bs with
      | [] => [[b]]
      | line :: rest => (b :: line) :: rest

/-- `total_num_chars` accumulated by the loop at lines 265-267: the sum of the
lengths of the lines iterated from the byte-mode handle. -/
def totalNumChars (content : List Byte) : Nat :=
  ((splitLinesRB content).map List.length).sum

/-- The per-file decision of `_check_newline_character` (lines 268-279): a file
of total length 1 is flagged; a longer file is flagged unless, after
`f.seek(-2, 2)`, the first byte read differs from a newline and the second
equals one.  Files of length 0 fall through unflagged. -/
def fileFlagged (content : List Byte) : Bool :=
  let t := totalNumChars content
  if t == 1 then true
  else if 1 < t then
    !(content.getD (content.length - 2) 0 != NEWLINE_BYTE &&
      content.getD (content.length - 1) 0 == NEWLINE_BYTE)
  else false

/-- Line 83-84. -/
def MESSAGE_TYPE_SUCCESS : String := "SUCCESS"

def MESSAGE_TYPE_FAILED : String := "FAILED"

/-- Line 88. -/
def PROTOTOOL_CONFIG_FILE : String := "prototool_config.json"

/-- The separator printed throughout the script. -/
def DASHES : String := "----------------------------------------"

/-- The abstract run environment: the file system, the version-control answers,
the external `prototool` binary's behaviour and the measured elapsed time. -/
structure Env where
  cwd : String
  pathExists : String → Bool
  isFile : String → Bool
  dirFiles : String → List String
  unstagedFiles : List String
  stagedFiles : List String
  fileContents : String → List Byte
  configContent : String
  lintExitZero : String → String → Bool
  lintOutput : String → String → String
  protoElapsedDs : Nat

/-- The mutually exclusive command-line modes (lines 59-69): no option,
`--path p`, or `--files f1 ... fn`. -/
inductive Args where
  | changed
  | path (p : String)
  | files (fs : List String)

/-- `_get_changed_filenames` (lines 90-102): unstaged then staged diff names. -/
def getChangedFilenames (env : Env) : List String :=
  env.unstagedFiles ++ env.stagedFiles

/-- The single diagnostic printed at lines 191-193 before exiting. -/
def missingFilesMessage (invalid : List String) : String :=
  "The following file(s) do not exist: " ++ pyStrList invalid ++ "\nExiting."

/-- The branch structure of `_get_all_files` (lines 170-197) before the
exclusion filter: the printed diagnostics paired with either `sys.exit(1)`
(`Except.error 1`) or the selected list.  An empty `--path` or `--files` value
is falsy in Python and falls through to the changed-files default. -/
def selectAllFiles (env : Env) (args : Args) : List String × Except Nat (List String) :=
  match args with
  | .path p =>
    if p == "" then ([], Except.ok (getChangedFilenames env))
    else
      let inputPath := osPathJoin env.cwd p
      if !env.pathExists inputPath then
        (["Could not locate file or directory " ++ inputPath ++ ". Exiting.", DASHES],
          Except.error 1)
      else if env.isFile inputPath then ([], Except.ok [inputPath])
      else ([], Except.ok (env.dirFiles inputPath))
  | .files fs =>
    if fs.isEmpty then ([], Except.ok (getChangedFilenames env))
    else
      let invalid := fs.filter (fun f => !env.isFile f)
      if !invalid.isEmpty then ([missingFilesMessage invalid], Except.error 1)
      else ([], Except.ok (fs.filter (fun f => env.isFile f)))
  | .changed => ([], Except.ok (getChangedFilenames env))

/-- `_get_all_files` (lines 165-201): the selected list with the exclusion
filter of lines 198-200 applied on success. -/
def getAllFiles (env : Env) (args : Args) : List String × Except Nat (List String) :=
  ((selectAllFiles env args).1, (selectAllFiles env args).2.map excludeFilter)

/-- Accumulator of the per-file loop of `_check_newline_character`. -/
structure NewlineAcc where
  checked : Nat
  errorCount : Nat
  failed : Bool
  printed : List String

/-- The loop at lines 262-279.  `fileFlagged` is exactly the source's
`total == 1` / `total > 1 and not (...)` flagging condition; the message matches
the branch taken (note the source quirk: the adjacent string literals at
lines 277-278 concatenate without a space, producing `endswith`). -/
def newlineLoop (fileContents : String → List Byte) :
    List String → NewlineAcc → NewlineAcc
  | [], acc => acc
  | filename :: rest, acc =>
    let content := fileContents filename
    let t := totalNumChars content
    let acc1 : NewlineAcc := { acc with checked := acc.checked + 1 }
    if fileFlagged content then
      newlineLoop fileContents rest
        { acc1 with
          failed := true
          errorCount := acc1.errorCount + 1
          printed := acc1.printed ++
            [if t == 1 then filename ++ " --> Error: Only one character in file"
             else filename ++ " --> Please ensure that this file ends" ++
               "with exactly one newline char."] }
    else newlineLoop fileContents rest acc1

/-- The outputs of `_check_newline_character` (lines 249-300): console lines,
the one-element summary-message list, and the two counters. -/
structure NewlineStage where
  printed : List String
  messages : List String
  filesChecked : Nat
  errorCount : Nat

/-- `_check_newline_character`: re-applies the exclusion filter (lines 258-260),
runs the per-file loop, and emits one `FAILED`/`SUCCESS` summary message, with
the counters printed separately (lines 293-298). -/
def checkNewlineCharacter (env : Env) (allFiles : List String) : NewlineStage :=
  let files := excludeFilter allFiles
  let acc := newlineLoop env.fileContents files
    { checked := 0, errorCount := 0, failed := false,
      printed := ["Starting newline-at-EOF checks", DASHES] }
  let summaryMessage :=
    if acc.failed then MESSAGE_TYPE_FAILED ++ "   Newline character checks failed"
    else MESSAGE_TYPE_SUCCESS ++ "   Newline character checks passed"
  let tailPrinted :=
    if acc.checked == 0 then ["", DASHES, "", "There are no files to be checked."]
    else ["", DASHES, "",
      toString acc.checked ++ " files checked, " ++ toString acc.errorCount ++ " errors found",
      summaryMessage]
  { printed := acc.printed ++ tailPrinted
    messages := [summaryMessage]
    filesChecked := acc.checked
    errorCount := acc.errorCount }

/-- Accumulator of the per-file loop of `_lint_proto_files`. -/
structure LintAcc where
  printed : List String
  invocations : Nat
  errorsExist : Bool

/-- The loop at lines 148-155: invoke the external binary on every file; on a
non-zero exit print the captured output and record the failure, then continue. -/
def lintLoop (lintOk : String → String → Bool) (lintOut : String → String → String)
    (config : String) : List String → LintAcc → LintAcc
  | [], acc => acc
  | f :: fs, acc =>
    let printed1 := acc.printed ++ ["Linting " ++ f]
    if lintOk config f then
      lintLoop lintOk lintOut config fs
        { printed := printed1, invocations := acc.invocations + 1,
          errorsExist := acc.errorsExist }
    else
      lintLoop lintOk lintOut config fs
        { printed := printed1 ++ [lintOut config f], invocations := acc.invocations + 1,
          errorsExist := true }

/-- The outputs of `_lint_proto_files` (lines 126-163): console lines, the
messages put on the result queue (always exactly one), and how many times the
external binary ran. -/
structure ProtoResult where
  printed : List String
  queued : List String
  invocations : Nat

/-- `_lint_proto_files`: with no files it puts the empty string on the queue and
only prints the notice (lines 136-139); otherwise it lints every file and queues
one summary message — `FAILED` with no further detail, or `SUCCESS` with the file
count and the `%.1f`-rendered elapsed time (lines 157-161). -/
def lintProtoFiles (env : Env) (filesToLint : List String) (config : String) : ProtoResult :=
  if filesToLint.isEmpty then
    { printed := ["There are no Proto files to lint."], queued := [""], invocations := 0 }
  else
    let acc := lintLoop env.lintExitZero env.lintOutput config filesToLint
      { printed := ["Linting " ++ toString filesToLint.length ++ " Proto files"],
        invocations := 0, errorsExist := false }
    let message :=
      if acc.errorsExist then MESSAGE_TYPE_FAILED ++ "    Proto linting failed"
      else MESSAGE_TYPE_SUCCESS ++ "   " ++ toString filesToLint.length ++
        " Proto files linted (" ++ formatDs env.protoElapsedDs ++ " secs)"
    { printed := acc.printed ++ ["Proto linting finished."]
      queued := [message]
      invocations := acc.invocations }

/-- How `_pre_commit_linter` terminates: an uncaught exception, an explicit
`sys.exit`, or a normal return carrying the collected summary messages. -/
inductive LinterOutcome where
  | uncaught (err : String)
  | exited (code : Nat)
  | ok (messages : List String)

structure LinterStage where
  printed : List String
  invocations : Nat
  outcome : LinterOutcome

/-- `_pre_commit_linter` (lines 204-246).  If the config file is missing,
line 208 evaluates `'Could not locate config file. Exiting.' % PROTOTOOL_CONFIG_FILE`
before anything is printed by that statement; the model keeps both branches of
that evaluation, the `Except.ok` one leading to the printed diagnostic and
`sys.exit(1)` as written.  Otherwise the config blob is read, the candidate set
is filtered to `.proto` suffixes (line 216-217), the worker runs
`_lint_proto_files` (modelled as completing within the 600s join timeout), and
the non-blocking queue read collects its one message. -/
def preCommitLinter (env : Env) (allFiles : List String) : LinterStage :=
  if env.isFile PROTOTOOL_CONFIG_FILE then
    let protoFilesToLint := allFiles.filter (fun filename => pyEndsWith filename ".proto")
    let lint := lintProtoFiles env protoFilesToLint env.configContent
    match lint.queued with
    | [] =>
      { printed := ["Starting linter...", "Starting Proto Linting", DASHES] ++ lint.printed,
        invocations := lint.invocations, outcome := .uncaught "Queue.Empty" }
    | m :: _ =>
      { printed := ["Starting linter...", "Starting Proto Linting", DASHES] ++
          lint.printed ++ ["", DASHES, m, ""],
        invocations := lint.invocations, outcome := .ok [m] }
  else
    match percentFormat "Could not locate config file. Exiting." [PROTOTOOL_CONFIG_FILE] with
    | .ok s =>
      { printed := ["Starting linter...", s, DASHES], invocations := 0, outcome := .exited 1 }
    | .error e =>
      { printed := ["Starting linter..."], invocations := 0,
        outcome := .uncaught ("TypeError: " ++ e) }

/-- How the whole process terminates. -/
inductive Outcome where
  | exited (code : Nat)
  | uncaught (err : String)
  | finished (code : Nat)

/-- The process exit status: `sys.exit(c)` exits `c`, an uncaught exception makes
the Python interpreter exit 1, and returning from `main` exits 0. -/
def processExitCode : Outcome → Nat
  | .exited c => c
  | .uncaught _ => 1
  | .finished c => c

/-- Observable result of one run of `main`. -/
structure RunResult where
  printed : List String
  summaryMessages : List String
  filesNewlineChecked : Nat
  lintInvocations : Nat
  outcome : Outcome

/-- The part of `main` after a successful file selection (lines 305-310): the
newline check runs first, then the linter stage; on a normal linter return the
messages are concatenated (linter messages then newline messages, line 307) and
any message starting with `FAILED` triggers `sys.exit(1)`. -/
def mainRunOk (env : Env) (selPrinted : List String) (allFiles : List String) : RunResult :=
  match (preCommitLinter env allFiles).outcome with
  | .uncaught e =>
    { printed := selPrinted ++ (checkNewlineCharacter env allFiles).printed ++
        (preCommitLinter env allFiles).printed
      summaryMessages := []
      filesNewlineChecked := (checkNewlineCharacter env allFiles).filesChecked
      lintInvocations := (preCommitLinter env allFiles).invocations
      outcome := .uncaught e }
  | .exited c =>
    { printed := selPrinted ++ (checkNewlineCharacter env allFiles).printed ++
        (preCommitLinter env allFiles).printed
      summaryMessages := []
      filesNewlineChecked := (checkNewlineCharacter env allFiles).filesChecked
      lintInvocations := (preCommitLinter env allFiles).invocations
      outcome := .exited c }
  | .ok linterMessages =>
    { printed := selPrinted ++ (checkNewlineCharacter env allFiles).printed ++
        (preCommitLinter env allFiles).printed
      summaryMessages := linterMessages ++ (checkNewlineCharacter env allFiles).messages
      filesNewlineChecked := (checkNewlineCharacter env allFiles).filesChecked
      lintInvocations := (preCommitLinter env allFiles).invocations
      outcome :=
        if (linterMessages ++ (checkNewlineCharacter env allFiles).messages).any
            (fun m => pyStartsWith m MESSAGE_TYPE_FAILED) then
          .exited 1
        else .finished 0 }

/-- `main` (lines 303-310). -/
def mainRun (env : Env) (args : Args) : RunResult :=
  match (getAllFiles env args).2 with
  | .error code =>
    { printed := (getAllFiles env args).1, summaryMessages := [],
      filesNewlineChecked := 0, lintInvocations := 0, outcome := .exited code }
  | .ok allFiles => mainRunOk env (getAllFiles env args).1 allFiles

/-- A concrete environment on which the full pipeline succeeds: one changed file
`a.proto` whose content ends in exactly one newline, a present config file, and
an external linter that accepts everything. -/
def envHappy : Env :=
  { cwd := "/root/oppia-ml-proto"
    pathExists := fun f => f == "/root/oppia-ml-proto/a.proto"
    isFile := fun f =>
      f == "prototool_config.json" || f == "a.proto" || f == "/root/oppia-ml-proto/a.proto"
    dirFiles := fun _ => []
    unstagedFiles := ["a.proto"]
    stagedFiles := []
    fileContents := fun _ => [120, 10]
    configContent := ""
    lintExitZero := fun _ _ => true
    lintOutput := fun _ _ => "lint error output"
    protoElapsedDs := 0 }

/-- `envHappy` with the lint configuration file absent. -/
def envNoConfig : Env := { envHappy with isFile := fun _ => false }

/-- `envHappy` with an external linter that rejects every file. -/
def envLintFail : Env := { envHappy with lintExitZero := fun _ _ => false }

/-! ## Helper lemmas -/

lemma totalNumChars_eq_length (content : List Byte) :
    totalNumChars content = content.length := by
  unfold totalNumChars
  induction content with
  | nil => rfl
  | cons b bs ih =>
    unfold splitLinesRB
    by_cases hb : (b == NEWLINE_BYTE) = true
    · simp only [hb, if_true, List.map_cons, List.sum_cons, List.length_cons,
        List.length_singleton, List.length_nil]
      omega
    · have hb2 : (b == NEWLINE_BYTE) = false := by
        simpa using hb
      simp only [hb2, Bool.false_eq_true, if_false]
      cases hsp : splitLinesRB bs with
      | nil =>
        rw [hsp] at ih
        simp only [List.map_nil, List.sum_nil] at ih
        simp [← ih]
      | cons line rest =>
        rw [hsp] at ih
        simp only [List.map_cons, List.sum_cons, List.length_cons] at ih ⊢
        omega

lemma excludeFilter_idem (files : List String) :
    excludeFilter (excludeFilter files) = excludeFilter files := by
  unfold excludeFilter
  rw [List.filter_filter]
  simp [Bool.and_self]

lemma getAllFiles_ok_filtered (env : Env) (args : Args) (files : List String)
    (h : (getAllFiles env args).2 = Except.ok files) :
    excludeFilter files = files := by
  unfold getAllFiles at h
  cases hs : (selectAllFiles env args).2 with
  | error c => rw [hs] at h; simp [Except.map] at h
  | ok src =>
    rw [hs] at h
    simp only [Except.map, Except.ok.injEq] at h
    rw [← h]
    exact excludeFilter_idem src

lemma newlineLoop_checked (fc : String → List Byte) (files : List String) (acc : NewlineAcc) :
    (newlineLoop fc files acc).checked = acc.checked + files.length := by
  induction files generalizing acc with
  | nil => simp [newlineLoop]
  | cons f fs ih =>
    unfold newlineLoop
    by_cases hf : fileFlagged (fc f) = true
    · simp only [hf, if_true, ih, List.length_cons]
      omega
    · have hf2 : fileFlagged (fc f) = false := by simpa using hf
      simp only [hf2, Bool.false_eq_true, if_false, ih, List.length_cons]
      omega

lemma checkNewline_filesChecked (env : Env) (allFiles : List String) :
    (checkNewlineCharacter env allFiles).filesChecked = (excludeFilter allFiles).length := by
  unfold checkNewlineCharacter
  simp [newlineLoop_checked]

lemma lintLoop_invocations (lok : String → String → Bool) (lout : String → String → String)
    (cfg : String) (files : List String) (acc : LintAcc) :
    (lintLoop lok lout cfg files acc).invocations = acc.invocations + files.length := by
  induction files generalizing acc with
  | nil => simp [lintLoop]
  | cons f fs ih =>
    unfold lintLoop
    by_cases hf : lok cfg f = true
    · simp only [hf, if_true, ih, List.length_cons]
      omega
    · have hf2 : lok cfg f = false := by simpa using hf
      simp only [hf2, Bool.false_eq_true, if_false, ih, List.length_cons]
      omega

lemma lintLoop_errors (lok : String → String → Bool) (lout : String → String → String)
    (cfg : String) (files : List String) (acc : LintAcc) :
    (lintLoop lok lout cfg files acc).errorsExist =
      (acc.errorsExist || files.any (fun f => !lok cfg f)) := by
  induction files generalizing acc with
  | nil => simp [lintLoop]
  | cons f fs ih =>
    unfold lintLoop
    by_cases hf : lok cfg f = true
    · simp [hf, ih]
    · have hf2 : lok cfg f = false := by simpa using hf
      simp [hf2, ih]

lemma lintLoop_printed_mono (lok : String → String → Bool) (lout : String → String → String)
    (cfg : String) (files : List String) (x : String) :
    ∀ acc : LintAcc, x ∈ acc.printed → x ∈ (lintLoop lok lout cfg files acc).printed := by
  induction files with
  | nil =>
    intro acc hx
    simpa [lintLoop] using hx
  | cons f fs ih =>
    intro acc hx
    unfold lintLoop
    by_cases hf : lok cfg f = true
    · simp only [hf, if_true]
      exact ih _ (by simp [hx])
    · have hf2 : lok cfg f = false := by simpa using hf
      simp only [hf2, Bool.false_eq_true, if_false]
      exact ih _ (by simp [hx])

lemma lintLoop_output_printed (lok : String → String → Bool) (lout : String → String → String)
    (cfg : String) (files : List String) (f : String) (hff : lok cfg f = false) :
    ∀ acc : LintAcc, f ∈ files → lout cfg f ∈ (lintLoop lok lout cfg files acc).printed := by
  induction files with
  | nil =>
    intro acc h
    simp at h
  | cons g gs ih =>
    intro acc hmem
    rcases List.mem_cons.mp hmem with hgf | hgs
    · subst hgf
      unfold lintLoop
      simp only [hff, Bool.false_eq_true, if_false]
      exact lintLoop_printed_mono lok lout cfg gs (lout cfg f) _ (by simp)
    · unfold lintLoop
      by_cases hg : lok cfg g = true
      · simp only [hg, if_true]
        exact ih _ hgs
      · have hg2 : lok cfg g = false := by simpa using hg
        simp only [hg2, Bool.false_eq_true, if_false]
        exact ih _ hgs

/-! ## Claim theorems -/

/-- C1: the newline checker does not flag a file of byte length 0; flags every
file of byte length exactly 1; and flags a file of byte length greater than 1
exactly when it is not the case that its penultimate byte is not a newline and
its final byte is a newline. -/
theorem newline_checker_classification (content : List Byte) :
    (content.length = 0 → fileFlagged content = false) ∧
    (content.length = 1 → fileFlagged content = true) ∧
    (1 < content.length →
      (fileFlagged content = true ↔
        ¬(content.getD (content.length - 2) 0 ≠ NEWLINE_BYTE ∧
          content.getD (content.length - 1) 0 = NEWLINE_BYTE))) := by
  unfold fileFlagged
  simp only [totalNumChars_eq_length]
  refine ⟨?_, ?_, ?_⟩
  · intro h
    simp [h]
  · intro h
    simp [h]
  · intro h
    have h1 : (content.length == 1) = false := by
      simp only [beq_eq_false_iff_ne, ne_eq]
      omega
    simp only [h1, Bool.false_eq_true, if_false, h, if_pos]
    simp only [Bool.not_eq_true', Bool.and_eq_false_iff, bne_eq_false_iff_eq,
      beq_eq_false_iff_ne, ne_eq, bne_iff_ne, beq_iff_eq]
    tauto

/-- Witness for C1 at the one-byte file `[0]`: it is flagged. -/
theorem newline_checker_classification_witness :
    ([0] : List Byte).length = 1 ∧ fileFlagged [0] = true :=
  ⟨rfl, (newline_checker_classification [0]).2.1 rfl⟩

/-- C7: a file set returned by the selection step is already exclusion-filtered,
so the newline checker's second application of the filter leaves it unchanged
and the checker inspects exactly the same files that the proto lint stage
receives in the same run of `main`. -/
theorem stage_inputs_identical (env : Env) (args : Args) (files : List String)
    (h : (getAllFiles env args).2 = Except.ok files) :
    excludeFilter files = files ∧
    (checkNewlineCharacter env files).filesChecked = files.length := by
  have hidem := getAllFiles_ok_filtered env args files h
  exact ⟨hidem, by rw [checkNewline_filesChecked, hidem]⟩

/-- Witness for C7 on a concrete run in changed-files mode. -/
theorem stage_inputs_identical_witness :
    excludeFilter ["a.proto"] = ["a.proto"] ∧
    (checkNewlineCharacter envHappy ["a.proto"]).filesChecked = ["a.proto"].length :=
  stage_inputs_identical envHappy Args.changed ["a.proto"] rfl

/-- C4 counterexample: on a candidate set with zero `.proto` files the proto
stage's summary message is the empty string, which does not carry the SUCCESS
tag (the "no files" notice goes to the console only). -/
theorem proto_no_files_counterexample :
    (preCommitLinter envHappy ["readme.txt"]).outcome = LinterOutcome.ok [""] ∧
    pyStartsWith "" MESSAGE_TYPE_SUCCESS = false ∧
    (preCommitLinter envHappy ["readme.txt"]).invocations = 0 := by
  refine ⟨rfl, rfl, rfl⟩

/-- C4 amended: for every candidate file set containing zero `.proto` files and
a present config file, the proto stage queues the empty string as its summary
message (untagged, hence not treated as a failure by the aggregation), prints
the `There are no Proto files to lint.` notice to the console, and the external
lint binary is invoked zero times. -/
theorem proto_stage_no_proto_files (env : Env) (allFiles : List String)
    (hcfg : env.isFile PROTOTOOL_CONFIG_FILE = true)
    (hn : allFiles.filter (fun f => pyEndsWith f ".proto") = []) :
    (preCommitLinter env allFiles).outcome = LinterOutcome.ok [""] ∧
    (preCommitLinter env allFiles).invocations = 0 ∧
    "There are no Proto files to lint." ∈ (preCommitLinter env allFiles).printed ∧
    pyStartsWith "" MESSAGE_TYPE_FAILED = false := by
  unfold preCommitLinter
  simp only [hcfg, if_true, hn]
  refine ⟨?_, ?_, ?_, rfl⟩ <;> simp [lintProtoFiles]

/-- Witness for C4 on a concrete candidate set with no `.proto` file. -/
theorem proto_stage_no_proto_files_witness :
    (preCommitLinter envHappy ["b.txt"]).outcome = LinterOutcome.ok [""] ∧
    (preCommitLinter envHappy ["b.txt"]).invocations = 0 ∧
    "There are no Proto files to lint." ∈ (preCommitLinter envHappy ["b.txt"]).printed ∧
    pyStartsWith "" MESSAGE_TYPE_FAILED = false :=
  proto_stage_no_proto_files envHappy ["b.txt"] rfl rfl

/-- C5 counterexample: on the empty input list (which the claim's universal
quantification covers) the stage emits one summary message, yet although no file
failed that message is the empty string rather than a SUCCESS message carrying
the file count and the elapsed time. -/
theorem proto_lint_empty_counterexample :
    (lintProtoFiles envHappy [] "cfg").queued = [""] ∧
    pyStartsWith "" MESSAGE_TYPE_SUCCESS = false ∧
    (lintProtoFiles envHappy [] "cfg").queued ≠
      [MESSAGE_TYPE_SUCCESS ++ "   " ++ toString (0 : Nat) ++ " Proto files linted (" ++
        formatDs envHappy.protoElapsedDs ++ " secs)"] := by
  refine ⟨rfl, rfl, by decide⟩

/-- C5 amended: for every nonempty input list of `.proto` files the stage
invokes the linter once per file (continuing past failures), prints the captured
output of every failing file, and queues exactly one summary message — a bare
FAILED message if any file failed, otherwise a SUCCESS message carrying the file
count and the elapsed wall-clock time at one-decimal precision. -/
theorem proto_lint_stage_behavior (env : Env) (cfg : String) (files : List String)
    (hne : files ≠ []) :
    (lintProtoFiles env files cfg).invocations = files.length ∧
    (∀ f ∈ files, env.lintExitZero cfg f = false →
      env.lintOutput cfg f ∈ (lintProtoFiles env files cfg).printed) ∧
    (lintProtoFiles env files cfg).queued =
      [if files.any (fun f => !env.lintExitZero cfg f) then
        MESSAGE_TYPE_FAILED ++ "    Proto linting failed"
       else MESSAGE_TYPE_SUCCESS ++ "   " ++ toString files.length ++
        " Proto files linted (" ++ formatDs env.protoElapsedDs ++ " secs)"] := by
  have hemp : files.isEmpty = false := by
    cases files with
    | nil => exact absurd rfl hne
    | cons a as => rfl
  unfold lintProtoFiles
  simp only [hemp, Bool.false_eq_true, if_false]
  refine ⟨?_, ?_, ?_⟩
  · simp [lintLoop_invocations]
  · intro f hf hfail
    have hmem := lintLoop_output_printed env.lintExitZero env.lintOutput cfg files f hfail
      { printed := ["Linting " ++ toString files.length ++ " Proto files"],
        invocations := 0, errorsExist := false } hf
    exact List.mem_append_left _ hmem
  · simp [lintLoop_errors]

/-- Witness for C5 on a one-file list whose lint fails: the binary ran once, the
captured output was printed, and one bare FAILED message was queued. -/
theorem proto_lint_stage_behavior_witness :
    (lintProtoFiles envLintFail ["a.proto"] "").invocations = 1 ∧
    (lintProtoFiles envLintFail ["a.proto"] "").queued =
      [MESSAGE_TYPE_FAILED ++ "    Proto linting failed"] ∧
    "lint error output" ∈ (lintProtoFiles envLintFail ["a.proto"] "").printed := by
  have h := proto_lint_stage_behavior envLintFail "" ["a.proto"] (List.cons_ne_nil _ _)
  refine ⟨h.1, ?_, h.2.1 "a.proto" (by simp) rfl⟩
  rw [h.2.2]
  rfl

lemma pyStartsWith_iff (s pre : String) :
    pyStartsWith s pre = true ↔ ∃ t, s.data = pre.data ++ t := by
  unfold pyStartsWith
  rw [List.isPrefixOf_iff_prefix]
  exact ⟨fun h => by obtain ⟨t, ht⟩ := h; exact ⟨t, ht.symm⟩,
    fun h => by obtain ⟨t, ht⟩ := h; exact ⟨t, ht.symm⟩⟩

lemma pyStartsWith_append (a b : String) (h : pyStartsWith a "/" = true) :
    pyStartsWith (a ++ b) "/" = true := by
  rw [pyStartsWith_iff] at h ⊢
  obtain ⟨t, ht⟩ := h
  exact ⟨t ++ b.data, by rw [String.data_append, ht, List.append_assoc]⟩

/-- `os.path.join` of an absolute working directory and any argument is an
absolute path. -/
lemma osPathJoin_abs (a b : String) (ha : pyStartsWith a "/" = true) :
    pyStartsWith (osPathJoin a b) "/" = true := by
  unfold osPathJoin
  by_cases hb : pyStartsWith b "/" = true
  · simp [hb]
  · have hb2 : pyStartsWith b "/" = false := by simpa using hb
    simp only [hb2, Bool.false_eq_true, if_false]
    by_cases hc : (a == "" || pyEndsWith a "/") = true
    · simp only [hc, if_true]
      exact pyStartsWith_append a b ha
    · have hc2 : (a == "" || pyEndsWith a "/") = false := by simpa using hc
      simp only [hc2, Bool.false_eq_true, if_false]
      exact pyStartsWith_append (a ++ "/") b (pyStartsWith_append a "/" ha)

lemma globMatch_head_mismatch (c : Char) (ps : List Char) (d : Char) (ds : List Char)
    (hstar : (c == '*') = false) (hq : (c == '?') = false) (hcd : (c == d) = false) :
    globMatch (c :: ps) (d :: ds) = false := by
  unfold globMatch
  simp [hstar, hq, hcd]

/-- None of the relative exclusion globs can match an absolute path: each
pattern opens with a literal character other than a slash. -/
lemma fnmatch_excluded_abs (s : String) (h : pyStartsWith s "/" = true) :
    ∀ pat ∈ EXCLUDED_PATHS, fnmatch s pat = false := by
  rw [pyStartsWith_iff] at h
  obtain ⟨t, ht⟩ := h
  have hd : s.data = '/' :: t := ht
  intro pat hp
  have hp3 : pat = "third_party/*" ∨ pat = ".git/*" ∨ pat = ".github/*" := by
    simpa [EXCLUDED_PATHS] using hp
  rcases hp3 with rfl | rfl | rfl <;>
    (unfold fnmatch; rw [hd]; exact globMatch_head_mismatch _ _ _ _ rfl rfl rfl)

/-- C9: in path mode on a single existing file, the selected entry is the
absolute join of the working directory and the argument, and the relative
exclusion globs cannot match it, so the post-filter keeps exactly that entry. -/
theorem path_mode_single_file_absolute (env : Env) (p : String)
    (hp : p ≠ "")
    (hcwd : pyStartsWith env.cwd "/" = true)
    (hex : env.pathExists (osPathJoin env.cwd p) = true)
    (hf : env.isFile (osPathJoin env.cwd p) = true) :
    (getAllFiles env (Args.path p)).2 = Except.ok [osPathJoin env.cwd p] ∧
    pyStartsWith (osPathJoin env.cwd p) "/" = true ∧
    ∀ pat ∈ EXCLUDED_PATHS, fnmatch (osPathJoin env.cwd p) pat = false := by
  have habs : pyStartsWith (osPathJoin env.cwd p) "/" = true := osPathJoin_abs env.cwd p hcwd
  have hnomatch := fnmatch_excluded_abs (osPathJoin env.cwd p) habs
  have hp2 : (p == "") = false := by simpa using hp
  have hfilter : excludeFilter [osPathJoin env.cwd p] = [osPathJoin env.cwd p] := by
    unfold excludeFilter
    have hany : EXCLUDED_PATHS.any (fun pat => fnmatch (osPathJoin env.cwd p) pat) = false :=
      List.any_eq_false.mpr (fun pat hpat => by simp [hnomatch pat hpat])
    simp [hany]
  refine ⟨?_, habs, hnomatch⟩
  unfold getAllFiles selectAllFiles
  simp only [hp2, Bool.false_eq_true, if_false, hex, Bool.not_true, if_false, hf, if_true]
  simpa [Except.map] using hfilter

/-- Witness for C9 at a concrete environment and path argument. -/
theorem path_mode_single_file_absolute_witness :
    (getAllFiles envHappy (Args.path "a.proto")).2 =
      Except.ok [osPathJoin envHappy.cwd "a.proto"] ∧
    pyStartsWith (osPathJoin envHappy.cwd "a.proto") "/" = true ∧
    fnmatch (osPathJoin envHappy.cwd "a.proto") "third_party/*" = false := by
  have h := path_mode_single_file_absolute envHappy "a.proto" (by decide) rfl rfl rfl
  exact ⟨h.1, h.2.1, h.2.2 "third_party/*" (by simp [EXCLUDED_PATHS])⟩

lemma preCommitLinter_config_missing (env : Env) (files : List String)
    (hcfg : env.isFile PROTOTOOL_CONFIG_FILE = false) :
    preCommitLinter env files =
      { printed := ["Starting linter..."], invocations := 0,
        outcome := .uncaught "TypeError: not all arguments converted during string formatting" } := by
  unfold preCommitLinter
  rw [hcfg]
  rfl

lemma lintProtoFiles_queued_ex (env : Env) (files : List String) (cfg : String) :
    ∃ m, (lintProtoFiles env files cfg).queued = [m] := by
  unfold lintProtoFiles
  split
  · exact ⟨"", rfl⟩
  · exact ⟨_, rfl⟩

lemma preCommitLinter_ok (env : Env) (files : List String)
    (hcfg : env.isFile PROTOTOOL_CONFIG_FILE = true) :
    ∃ m, (lintProtoFiles env (files.filter (fun f => pyEndsWith f ".proto"))
        env.configContent).queued = [m] ∧
      (preCommitLinter env files).outcome = LinterOutcome.ok [m] ∧
      (preCommitLinter env files).invocations =
        (lintProtoFiles env (files.filter (fun f => pyEndsWith f ".proto"))
          env.configContent).invocations := by
  obtain ⟨m, hm⟩ := lintProtoFiles_queued_ex env
    (files.filter (fun f => pyEndsWith f ".proto")) env.configContent
  refine ⟨m, hm, ?_, ?_⟩ <;>
    (unfold preCommitLinter; rw [hcfg]; simp only [if_true, hm])

lemma mainRun_error (env : Env) (args : Args) (c : Nat)
    (h : (getAllFiles env args).2 = Except.error c) :
    mainRun env args =
      { printed := (getAllFiles env args).1, summaryMessages := [],
        filesNewlineChecked := 0, lintInvocations := 0, outcome := .exited c } := by
  unfold mainRun
  rw [h]

lemma mainRun_ok_eq (env : Env) (args : Args) (files : List String)
    (h : (getAllFiles env args).2 = Except.ok files) :
    mainRun env args = mainRunOk env (getAllFiles env args).1 files := by
  unfold mainRun
  rw [h]

lemma mainRunOk_uncaught (env : Env) (sp : List String) (files : List String) (e : String)
    (h : (preCommitLinter env files).outcome = LinterOutcome.uncaught e) :
    mainRunOk env sp files =
      { printed := sp ++ (checkNewlineCharacter env files).printed ++
          (preCommitLinter env files).printed
        summaryMessages := []
        filesNewlineChecked := (checkNewlineCharacter env files).filesChecked
        lintInvocations := (preCommitLinter env files).invocations
        outcome := .uncaught e } := by
  unfold mainRunOk
  rw [h]

lemma mainRunOk_ok (env : Env) (sp : List String) (files : List String) (msgs : List String)
    (h : (preCommitLinter env files).outcome = LinterOutcome.ok msgs) :
    mainRunOk env sp files =
      { printed := sp ++ (checkNewlineCharacter env files).printed ++
          (preCommitLinter env files).printed
        summaryMessages := msgs ++ (checkNewlineCharacter env files).messages
        filesNewlineChecked := (checkNewlineCharacter env files).filesChecked
        lintInvocations := (preCommitLinter env files).invocations
        outcome :=
          if (msgs ++ (checkNewlineCharacter env files).messages).any
              (fun m => pyStartsWith m MESSAGE_TYPE_FAILED) then
            .exited 1
          else .finished 0 } := by
  unfold mainRunOk
  rw [h]

/-- C10: the missing-config diagnostic is never printed — the `%` operator is
applied to a format string with no conversion placeholder, which raises before
the print completes, so the stage aborts via an exception and never reaches the
explicit exit statement. -/
theorem config_diagnostic_never_printed (env : Env) (files : List String)
    (hcfg : env.isFile PROTOTOOL_CONFIG_FILE = false) :
    percentFormat "Could not locate config file. Exiting." [PROTOTOOL_CONFIG_FILE] =
      Except.error "not all arguments converted during string formatting" ∧
    (preCommitLinter env files).outcome =
      LinterOutcome.uncaught "TypeError: not all arguments converted during string formatting" ∧
    "Could not locate config file. Exiting." ∉ (preCommitLinter env files).printed ∧
    ∀ c, (preCommitLinter env files).outcome ≠ LinterOutcome.exited c := by
  have h := preCommitLinter_config_missing env files hcfg
  refine ⟨rfl, ?_, ?_, ?_⟩
  · rw [h]
  · rw [h]
    decide
  · intro c
    rw [h]
    intro hcon
    exact LinterOutcome.noConfusion hcon

/-- Witness for C10 at a concrete environment with the config file absent. -/
theorem config_diagnostic_never_printed_witness :
    percentFormat "Could not locate config file. Exiting." [PROTOTOOL_CONFIG_FILE] =
      Except.error "not all arguments converted during string formatting" ∧
    (preCommitLinter envNoConfig ["a.proto"]).outcome =
      LinterOutcome.uncaught "TypeError: not all arguments converted during string formatting" ∧
    "Could not locate config file. Exiting." ∉ (preCommitLinter envNoConfig ["a.proto"]).printed := by
  have h := config_diagnostic_never_printed envNoConfig ["a.proto"] rfl
  exact ⟨h.1, h.2.1, h.2.2.1⟩

/-- C3 counterexample: with the config file missing, the run still performed the
newline check on the selected file (one file checked, where the claim demands
none), and the claimed diagnostic is never printed; the process dies with exit
status 1 through the uncaught formatting exception. -/
theorem config_missing_counterexample :
    (mainRun envNoConfig Args.changed).filesNewlineChecked = 1 ∧
    processExitCode (mainRun envNoConfig Args.changed).outcome = 1 ∧
    "Could not locate config file. Exiting." ∉ (mainRun envNoConfig Args.changed).printed := by
  refine ⟨rfl, rfl, by decide⟩

/-- C3 amended: when the lint configuration file is missing the process does
terminate with exit status 1 and no file is linted, but termination happens via
an uncaught formatting exception rather than the diagnostic-plus-exit path, and
the newline convention check — which `main` runs before the config check — has
already checked every selected file. -/
theorem config_missing_run (env : Env) (args : Args) (files : List String)
    (hcfg : env.isFile PROTOTOOL_CONFIG_FILE = false)
    (hsel : (getAllFiles env args).2 = Except.ok files) :
    processExitCode (mainRun env args).outcome = 1 ∧
    (∃ e, (mainRun env args).outcome = Outcome.uncaught e) ∧
    (mainRun env args).lintInvocations = 0 ∧
    (mainRun env args).filesNewlineChecked = files.length := by
  have hpc := preCommitLinter_config_missing env files hcfg
  have hout : (preCommitLinter env files).outcome =
      LinterOutcome.uncaught "TypeError: not all arguments converted during string formatting" := by
    rw [hpc]
  rw [mainRun_ok_eq env args files hsel, mainRunOk_uncaught env _ files _ hout]
  refine ⟨rfl, ⟨_, rfl⟩, ?_, ?_⟩
  · rw [hpc]
  · rw [checkNewline_filesChecked, getAllFiles_ok_filtered env args files hsel]

/-- Witness for C3 (amended) at a concrete environment. -/
theorem config_missing_run_witness :
    processExitCode (mainRun envNoConfig Args.changed).outcome = 1 ∧
    (mainRun envNoConfig Args.changed).lintInvocations = 0 ∧
    (mainRun envNoConfig Args.changed).filesNewlineChecked = ["a.proto"].length := by
  have h := config_missing_run envNoConfig Args.changed ["a.proto"] rfl rfl
  exact ⟨h.1, h.2.2.1, h.2.2.2⟩

/-- C2: for every run that reaches the aggregation step (file selection
succeeded and the config file exists, so the linter stage returned its
messages), the process exits nonzero exactly when some summary message carries
the FAILED tag and exits zero exactly when none does. -/
theorem aggregation_exit_code (env : Env) (args : Args) (files : List String)
    (hsel : (getAllFiles env args).2 = Except.ok files)
    (hcfg : env.isFile PROTOTOOL_CONFIG_FILE = true) :
    (processExitCode (mainRun env args).outcome ≠ 0 ↔
      ∃ m ∈ (mainRun env args).summaryMessages, pyStartsWith m MESSAGE_TYPE_FAILED = true) ∧
    (processExitCode (mainRun env args).outcome = 0 ↔
      ∀ m ∈ (mainRun env args).summaryMessages, pyStartsWith m MESSAGE_TYPE_FAILED = false) := by
  obtain ⟨m, hqm, hout, hinv⟩ := preCommitLinter_ok env files hcfg
  rw [mainRun_ok_eq env args files hsel, mainRunOk_ok env _ files [m] hout]
  by_cases hany : (([m] ++ (checkNewlineCharacter env files).messages).any
      (fun x => pyStartsWith x MESSAGE_TYPE_FAILED)) = true
  · simp only [hany, if_true]
    have hex := List.any_eq_true.mp hany
    refine ⟨⟨fun _ => hex, fun _ => by simp [processExitCode]⟩,
      iff_of_false (by simp [processExitCode]) ?_⟩
    obtain ⟨x, hx, hpx⟩ := hex
    intro hall
    exact absurd (hall x hx) (by simp [hpx])
  · have hany2 : (([m] ++ (checkNewlineCharacter env files).messages).any
        (fun x => pyStartsWith x MESSAGE_TYPE_FAILED)) = false := by
      simpa using hany
    simp only [hany2, Bool.false_eq_true, if_false]
    have hall := List.any_eq_false.mp hany2
    refine ⟨iff_of_false (by simp [processExitCode]) ?_,
      iff_of_true (by simp [processExitCode]) ?_⟩
    · intro hex
      obtain ⟨x, hx, hpx⟩ := hex
      exact absurd hpx (hall x hx)
    · intro x hx
      simpa using hall x hx

/-- Witness for C2 on a fully successful concrete run: exit status 0 and no
FAILED-tagged message. -/
theorem aggregation_exit_code_witness :
    processExitCode (mainRun envHappy Args.changed).outcome = 0 ∧
    (∀ m ∈ (mainRun envHappy Args.changed).summaryMessages,
      pyStartsWith m MESSAGE_TYPE_FAILED = false) := by
  have h := aggregation_exit_code envHappy Args.changed ["a.proto"] rfl rfl
  have hall : ∀ m ∈ (mainRun envHappy Args.changed).summaryMessages,
      pyStartsWith m MESSAGE_TYPE_FAILED = false := by decide
  exact ⟨h.2.mpr hall, hall⟩

/-- C6: in files mode, if at least one listed entry does not exist as a file the
run exits with status 1, the single printed diagnostic lists every missing entry
(the Python `str` of the full invalid list), and zero files reach either check
stage. -/
theorem files_mode_missing_fatal (env : Env) (fs : List String)
    (hne : fs ≠ []) (hmiss : ∃ f ∈ fs, env.isFile f = false) :
    (mainRun env (Args.files fs)).outcome = Outcome.exited 1 ∧
    (mainRun env (Args.files fs)).filesNewlineChecked = 0 ∧
    (mainRun env (Args.files fs)).lintInvocations = 0 ∧
    (mainRun env (Args.files fs)).printed =
      [missingFilesMessage (fs.filter (fun f => !env.isFile f))] ∧
    ∀ f ∈ fs, env.isFile f = false → f ∈ fs.filter (fun f => !env.isFile f) := by
  have hemp : fs.isEmpty = false := by
    cases fs with
    | nil => exact absurd rfl hne
    | cons a as => rfl
  have hinvmem : ∀ f ∈ fs, env.isFile f = false → f ∈ fs.filter (fun f => !env.isFile f) := by
    intro f hf hmf
    exact List.mem_filter.mpr ⟨hf, by simp [hmf]⟩
  have hinv : (fs.filter (fun f => !env.isFile f)).isEmpty = false := by
    obtain ⟨f, hf, hmf⟩ := hmiss
    have hm := hinvmem f hf hmf
    cases hfl : fs.filter (fun f => !env.isFile f) with
    | nil => rw [hfl] at hm; simp at hm
    | cons a as => rfl
  have hsel : (getAllFiles env (Args.files fs)).2 = Except.error 1 := by
    unfold getAllFiles selectAllFiles
    simp [hemp, hinv, Except.map]
  have hpr : (getAllFiles env (Args.files fs)).1 =
      [missingFilesMessage (fs.filter (fun f => !env.isFile f))] := by
    unfold getAllFiles selectAllFiles
    simp [hemp, hinv]
  rw [mainRun_error env (Args.files fs) 1 hsel]
  exact ⟨rfl, rfl, rfl, hpr, hinvmem⟩

/-- Witness for C6 at a concrete one-entry missing file list. -/
theorem files_mode_missing_fatal_witness :
    (mainRun envHappy (Args.files ["missing.txt"])).outcome = Outcome.exited 1 ∧
    (mainRun envHappy (Args.files ["missing.txt"])).filesNewlineChecked = 0 ∧
    (mainRun envHappy (Args.files ["missing.txt"])).lintInvocations = 0 := by
  have h := files_mode_missing_fatal envHappy ["missing.txt"] (List.cons_ne_nil _ _)
    ⟨"missing.txt", by simp, rfl⟩
  exact ⟨h.1, h.2.1, h.2.2.1⟩

lemma not_failed_of_data_S (s : String) (hs : ∃ t, s.data = 'S' :: t) :
    pyStartsWith s MESSAGE_TYPE_FAILED = false := by
  obtain ⟨t, ht⟩ := hs
  unfold pyStartsWith MESSAGE_TYPE_FAILED
  rw [ht]
  rfl

/-- A proto SUCCESS summary message never carries the FAILED tag, whatever the
count and the elapsed-time reading. -/
lemma proto_success_message_not_failed (n : String) (d : Nat) :
    pyStartsWith (MESSAGE_TYPE_SUCCESS ++ "   " ++ n ++ " Proto files linted (" ++
      formatDs d ++ " secs)") MESSAGE_TYPE_FAILED = false := by
  apply not_failed_of_data_S
  refine ⟨"UCCESS".data ++ ("   ".data ++ (n.data ++
    (" Proto files linted (".data ++ ((formatDs d).data ++ " secs)".data)))), ?_⟩
  simp only [String.data_append, List.append_assoc]
  rfl

lemma lintProtoFiles_time_invariant (env1 env2 : Env) (files : List String) (cfg : String)
    (hlz : env1.lintExitZero = env2.lintExitZero) (hlo : env1.lintOutput = env2.lintOutput) :
    (lintProtoFiles env1 files cfg).printed = (lintProtoFiles env2 files cfg).printed ∧
    (lintProtoFiles env1 files cfg).invocations = (lintProtoFiles env2 files cfg).invocations ∧
    (lintProtoFiles env1 files cfg).queued.map (fun m => pyStartsWith m MESSAGE_TYPE_FAILED) =
      (lintProtoFiles env2 files cfg).queued.map
        (fun m => pyStartsWith m MESSAGE_TYPE_FAILED) := by
  unfold lintProtoFiles
  rw [hlz, hlo]
  by_cases hemp : files.isEmpty = true
  · simp [hemp]
  · have hemp2 : files.isEmpty = false := by simpa using hemp
    simp only [hemp2, Bool.false_eq_true, if_false]
    refine ⟨trivial, trivial, ?_⟩
    by_cases herr : (lintLoop env2.lintExitZero env2.lintOutput cfg files
        { printed := ["Linting " ++ toString files.length ++ " Proto files"],
          invocations := 0, errorsExist := false }).errorsExist = true
    · simp only [herr, if_true]
    · have herr2 : (lintLoop env2.lintExitZero env2.lintOutput cfg files
          { printed := ["Linting " ++ toString files.length ++ " Proto files"],
            invocations := 0, errorsExist := false }).errorsExist = false := by simpa using herr
      simp only [herr2, Bool.false_eq_true, if_false, List.map_cons, List.map_nil]
      rw [proto_success_message_not_failed, proto_success_message_not_failed]

lemma preCommitLinter_time_invariant (env1 env2 : Env) (files : List String)
    (hisf : env1.isFile = env2.isFile) (hcc : env1.configContent = env2.configContent)
    (hlz : env1.lintExitZero = env2.lintExitZero) (hlo : env1.lintOutput = env2.lintOutput) :
    (preCommitLinter env1 files).invocations = (preCommitLinter env2 files).invocations ∧
    ((∃ e, (preCommitLinter env1 files).outcome = LinterOutcome.uncaught e ∧
           (preCommitLinter env2 files).outcome = LinterOutcome.uncaught e) ∨
     (∃ m1 m2, (preCommitLinter env1 files).outcome = LinterOutcome.ok [m1] ∧
               (preCommitLinter env2 files).outcome = LinterOutcome.ok [m2] ∧
               pyStartsWith m1 MESSAGE_TYPE_FAILED = pyStartsWith m2 MESSAGE_TYPE_FAILED)) := by
  by_cases hcfg : env1.isFile PROTOTOOL_CONFIG_FILE = true
  · have hcfg2 : env2.isFile PROTOTOOL_CONFIG_FILE = true := by rw [← hisf]; exact hcfg
    obtain ⟨m1, hq1, ho1, hi1⟩ := preCommitLinter_ok env1 files hcfg
    obtain ⟨m2, hq2, ho2, hi2⟩ := preCommitLinter_ok env2 files hcfg2
    rw [hcc] at hq1 hi1
    have hli := lintProtoFiles_time_invariant env1 env2
      (files.filter (fun f => pyEndsWith f ".proto")) env2.configContent hlz hlo
    constructor
    · rw [hi1, hi2]
      exact hli.2.1
    · refine Or.inr ⟨m1, m2, ho1, ho2, ?_⟩
      have hmap := hli.2.2
      rw [hq1, hq2] at hmap
      simpa using hmap
  · have hcfg1f : env1.isFile PROTOTOOL_CONFIG_FILE = false := by simpa using hcfg
    have hcfg2f : env2.isFile PROTOTOOL_CONFIG_FILE = false := by rw [← hisf]; exact hcfg1f
    rw [preCommitLinter_config_missing env1 files hcfg1f,
      preCommitLinter_config_missing env2 files hcfg2f]
    exact ⟨rfl, Or.inl ⟨_, rfl, rfl⟩⟩

lemma getAllFiles_time_invariant (env1 env2 : Env) (args : Args)
    (hcwd : env1.cwd = env2.cwd) (hpe : env1.pathExists = env2.pathExists)
    (hisf : env1.isFile = env2.isFile) (hdf : env1.dirFiles = env2.dirFiles)
    (hus : env1.unstagedFiles = env2.unstagedFiles)
    (hss : env1.stagedFiles = env2.stagedFiles) :
    getAllFiles env1 args = getAllFiles env2 args := by
  unfold getAllFiles selectAllFiles getChangedFilenames
  simp only [hcwd, hpe, hisf, hdf, hus, hss]

lemma checkNewline_time_invariant (env1 env2 : Env) (files : List String)
    (hfc : env1.fileContents = env2.fileContents) :
    checkNewlineCharacter env1 files = checkNewlineCharacter env2 files := by
  unfold checkNewlineCharacter
  rw [hfc]

/-- C8 counterexample: two runs over identical file contents, identical
version-control answers and identical external-linter results, differing only in
the measured elapsed time, produce different summary messages (the proto SUCCESS
message embeds the elapsed reading at one-decimal precision). -/
theorem repeat_run_messages_differ :
    envHappy.fileContents = ({ envHappy with protoElapsedDs := 1 } : Env).fileContents ∧
    envHappy.lintExitZero = ({ envHappy with protoElapsedDs := 1 } : Env).lintExitZero ∧
    envHappy.unstagedFiles = ({ envHappy with protoElapsedDs := 1 } : Env).unstagedFiles ∧
    (mainRun envHappy Args.changed).summaryMessages ≠
      (mainRun { envHappy with protoElapsedDs := 1 } Args.changed).summaryMessages := by
  refine ⟨rfl, rfl, rfl, by decide⟩

/-- C8 amended: two runs whose environments agree on everything except the
measured wall-clock reading always produce the same exit status, and whenever
the elapsed readings also coincide the two runs are fully identical, summary
messages included (the messages can otherwise differ only in the elapsed-time
field of the proto SUCCESS message). -/
theorem repeat_run_exit_stable (env1 env2 : Env) (args : Args)
    (hcwd : env1.cwd = env2.cwd) (hpe : env1.pathExists = env2.pathExists)
    (hisf : env1.isFile = env2.isFile) (hdf : env1.dirFiles = env2.dirFiles)
    (hus : env1.unstagedFiles = env2.unstagedFiles)
    (hss : env1.stagedFiles = env2.stagedFiles)
    (hfc : env1.fileContents = env2.fileContents)
    (hcc : env1.configContent = env2.configContent)
    (hlz : env1.lintExitZero = env2.lintExitZero)
    (hlo : env1.lintOutput = env2.lintOutput) :
    processExitCode (mainRun env1 args).outcome =
      processExitCode (mainRun env2 args).outcome ∧
    (env1.protoElapsedDs = env2.protoElapsedDs → mainRun env1 args = mainRun env2 args) := by
  have hga : getAllFiles env1 args = getAllFiles env2 args :=
    getAllFiles_time_invariant env1 env2 args hcwd hpe hisf hdf hus hss
  constructor
  · cases hres : (getAllFiles env1 args).2 with
    | error c =>
      have hres2 : (getAllFiles env2 args).2 = Except.error c := by rw [← hga]; exact hres
      rw [mainRun_error env1 args c hres, mainRun_error env2 args c hres2]
    | ok files =>
      have hres2 : (getAllFiles env2 args).2 = Except.ok files := by rw [← hga]; exact hres
      rw [mainRun_ok_eq env1 args files hres, mainRun_ok_eq env2 args files hres2]
      obtain ⟨hinv, hdisj⟩ := preCommitLinter_time_invariant env1 env2 files hisf hcc hlz hlo
      rcases hdisj with ⟨e, ho1, ho2⟩ | ⟨m1, m2, ho1, ho2, hpys⟩
      · rw [mainRunOk_uncaught env1 _ files e ho1, mainRunOk_uncaught env2 _ files e ho2]
      · rw [mainRunOk_ok env1 _ files [m1] ho1, mainRunOk_ok env2 _ files [m2] ho2]
        have hnl := checkNewline_time_invariant env1 env2 files hfc
        rw [hnl]
        simp only [List.singleton_append, List.any_cons, hpys]
  · intro hd
    have henv : env1 = env2 := by
      cases env1
      cases env2
      simp_all
    rw [henv]

/-- Witness for C8 (amended) on two concrete runs differing only in the elapsed
reading: the exit codes coincide. -/
theorem repeat_run_exit_stable_witness :
    processExitCode (mainRun envHappy Args.changed).outcome =
      processExitCode (mainRun { envHappy with protoElapsedDs := 1 } Args.changed).outcome :=
  (repeat_run_exit_stable envHappy { envHappy with protoElapsedDs := 1 } Args.changed
    rfl rfl rfl rfl rfl rfl rfl rfl rfl rfl).1

end PreCommitLinter
